import Mathlib

/-!
Shallow embedding of the generic BIDS validation framework
(`src/hf_bids_nifti/validation.py`) and proofs about it.

The filesystem and the external image-header parser (nibabel) are modelled
as an abstract environment `FS`: `pathExists` embeds `Path.exists`,
`glob` embeds `Path.glob`, and `loadHeader` embeds `nib.load(f).header`,
returning `Except.error msg` when the Python call would raise an exception
whose `str` is `msg`.  `random.sample(files, k)` is modelled as an abstract
`sampler : List String → Nat → List String` parameter; its contract
(a draw without replacement of exactly `k` elements) enters theorems as
hypotheses on the sampler, discharged in witnesses by the deterministic
instance `takeSampler`.

`spot_check_nifti_files_traced` additionally returns the list of files
whose headers the run attempted to open, in order, so that claims about
which files are (not) opened are expressible; the plain
`spot_check_nifti_files` is its first projection and matches the source
signature.
-/

namespace HfBidsNifti

/-- Embeds the `ValidationCheck` dataclass: result of a single validation
check.  `details` is `Option String` for Python's `str | None = None`. -/
structure ValidationCheck where
  name : String
  passed : Bool
  expected : String
  actual : String
  details : Option String := none
deriving Repr, DecidableEq

/-- Embeds the `ValidationResult` dataclass: aggregated result of multiple
validation checks. -/
structure ValidationResult where
  bids_root : String
  checks : List ValidationCheck := []
deriving Repr, DecidableEq

/-- Embeds `ValidationResult.add_check`: appends a check to the list. -/
def ValidationResult.add_check (r : ValidationResult) (c : ValidationCheck) :
    ValidationResult :=
  { r with checks := r.checks ++ [c] }

/-- Embeds the `ValidationResult.all_passed` property:
`all(check.passed for check in self.checks)`. -/
def ValidationResult.all_passed (r : ValidationResult) : Bool :=
  r.checks.all fun check => check.passed

/-- Abstract environment: filesystem plus the external header parser. -/
structure FS where
  pathExists : String → Bool
  glob : String → String → List String
  loadHeader : String → Except String Unit

/-- Python `repr` of a list of strings, as produced by
`f"Required: {required_files}"` in the source. -/
def pyReprStrList (xs : List String) : String :=
  "[" ++ String.intercalate ", " (xs.map fun s => "\x27" ++ s ++ "\x27") ++ "]"

/-- The default `required_files` list in `validate_bids_required_files`. -/
def default_required_files : List String :=
  ["dataset_description.json", "participants.tsv"]

/-- Embeds `missing = [f for f in required_files if not (bids_root / f).exists()]`. -/
def missing_required (fs : FS) (bids_root : String) (req : List String) :
    List String :=
  req.filter fun f => !(fs.pathExists (bids_root ++ "/" ++ f))

/-- Embeds `validate_bids_required_files`. -/
def validate_bids_required_files (fs : FS) (bids_root : String)
    (required_files : Option (List String)) : ValidationCheck :=
  let req := required_files.getD default_required_files
  let missing := missing_required fs bids_root req
  if missing.isEmpty then
    { name := "bids_required_files", passed := true,
      expected := "all present", actual := "all present" }
  else
    { name := "bids_required_files", passed := false,
      expected := "all present",
      actual := "missing: " ++ String.intercalate ", " missing,
      details := some ("Required: " ++ pyReprStrList req) }

/-- Embeds the `for f in sample: _ = nib.load(f).header` loop inside the
`try` block of `spot_check_nifti_files`: the first raised exception aborts
the loop.  The second component is the list of files whose headers were
opened, in order. -/
def load_headers (fs : FS) : List String → Except String Unit × List String
  | [] => (Except.ok (), [])
  | f :: rest =>
    match fs.loadHeader f with
    | Except.error e => (Except.error e, [f])
    | Except.ok _ =>
      let r := load_headers fs rest
      (r.1, f :: r.2)

/-- Embeds `spot_check_nifti_files`, instrumented: the second component is
the list of files whose headers the run attempted to open. -/
def spot_check_nifti_files_traced (fs : FS)
    (sampler : List String → Nat → List String)
    (bids_root pattern : String) (sample_size : Nat) :
    ValidationCheck × List String :=
  let nifti_files := fs.glob bids_root pattern
  if nifti_files.isEmpty then
    ({ name := "nifti_integrity", passed := false,
       expected := "loadable NIfTI files", actual := "no files found",
       details := some ("Pattern: " ++ pattern) }, [])
  else
    let sample := sampler nifti_files (min sample_size nifti_files.length)
    let actual_sample_size := sample.length
    match load_headers fs sample with
    | (Except.error e, opened) =>
      ({ name := "nifti_integrity", passed := false,
         expected := toString actual_sample_size ++ "/" ++
           toString actual_sample_size ++ " loadable",
         actual := "ERROR: " ++ e,
         details := some ("Pattern: " ++ pattern) }, opened)
    | (Except.ok _, opened) =>
      ({ name := "nifti_integrity", passed := true,
         expected := toString actual_sample_size ++ "/" ++
           toString actual_sample_size ++ " loadable",
         actual := toString actual_sample_size ++ "/" ++
           toString actual_sample_size ++ " passed",
         details := some ("Checked " ++ toString actual_sample_size ++
           " of " ++ toString nifti_files.length ++ " files") }, opened)

/-- Embeds `spot_check_nifti_files` (source signature: returns only the
check). -/
def spot_check_nifti_files (fs : FS)
    (sampler : List String → Nat → List String)
    (bids_root pattern : String) (sample_size : Nat) : ValidationCheck :=
  (spot_check_nifti_files_traced fs sampler bids_root pattern sample_size).1

/-- Embeds `validate_count`. -/
def validate_count (name : String) (actual : Int) (expected_min : Int)
    (expected_max : Option Int) : ValidationCheck :=
  let p :=
    match expected_max with
    | none => (">= " ++ toString expected_min, decide (expected_min ≤ actual))
    | some mx =>
      (toString expected_min ++ "-" ++ toString mx,
       decide (expected_min ≤ actual) && decide (actual ≤ mx))
  { name := name, passed := p.2, expected := p.1, actual := toString actual,
    details :=
      if p.2 then none
      else some ("Expected " ++ p.1 ++ ", got " ++ toString actual) }

/-- Embeds `validate_generic_bids`. -/
def validate_generic_bids (fs : FS)
    (sampler : List String → Nat → List String)
    (bids_root : String) (nifti_pattern : String) (nifti_sample_size : Nat) :
    ValidationResult :=
  if !(fs.pathExists bids_root) then
    ValidationResult.add_check { bids_root := bids_root, checks := [] }
      { name := "bids_root_exists", passed := false,
        expected := "directory exists", actual := "not found",
        details := some bids_root }
  else
    ValidationResult.add_check
      (ValidationResult.add_check { bids_root := bids_root, checks := [] }
        (validate_bids_required_files fs bids_root none))
      (spot_check_nifti_files fs sampler bids_root nifti_pattern
        nifti_sample_size)

/-- Deterministic instantiation of the abstract sampler, used by witnesses:
taking the first `k` elements is one valid draw without replacement. -/
def takeSampler (l : List String) (k : Nat) : List String :=
  l.take k

/-- Concrete environment in which no path exists. -/
def fsRootMissing : FS :=
  { pathExists := fun _ => false,
    glob := fun _ _ => [],
    loadHeader := fun _ => Except.ok () }

/-- Concrete environment: root and required files exist, three matching
NIfTI files, every header loads cleanly. -/
def fsClean : FS :=
  { pathExists := fun _ => true,
    glob := fun _ _ => ["a_T1w.nii.gz", "b_T1w.nii.gz", "c_T1w.nii.gz"],
    loadHeader := fun _ => Except.ok () }

/-- Concrete environment: three matching files; the header of the middle
one raises an error whose message is "bad header". -/
def fsCorrupt : FS :=
  { pathExists := fun _ => true,
    glob := fun _ _ => ["good1.nii.gz", "bad.nii.gz", "good2.nii.gz"],
    loadHeader := fun f =>
      if f == "bad.nii.gz" then Except.error "bad header" else Except.ok () }

/-- If every file in the list loads cleanly, the loop opens all of them in
order and succeeds. -/
theorem load_headers_all_ok (fs : FS) (l : List String)
    (hok : ∀ f ∈ l, fs.loadHeader f = Except.ok ()) :
    load_headers fs l = (Except.ok (), l) := by
  induction l with
  | nil => rfl
  | cons f rest ih =>
    have hf := hok f (List.mem_cons_self f rest)
    have hrest : ∀ g ∈ rest, fs.loadHeader g = Except.ok () :=
      fun g hg => hok g (List.mem_cons_of_mem f hg)
    simp [load_headers, hf, ih hrest]

/-- The first failing file aborts the loop: only the prefix before it and
the failing file itself are opened, and the error is returned. -/
theorem load_headers_first_error (fs : FS) (pre post : List String)
    (f e : String)
    (hpre : ∀ g ∈ pre, fs.loadHeader g = Except.ok ())
    (hf : fs.loadHeader f = Except.error e) :
    load_headers fs (pre ++ f :: post) = (Except.error e, pre ++ [f]) := by
  induction pre with
  | nil => simp [load_headers, hf]
  | cons g rest ih =>
    have hg := hpre g (List.mem_cons_self g rest)
    have hrest : ∀ x ∈ rest, fs.loadHeader x = Except.ok () :=
      fun x hx => hpre x (List.mem_cons_of_mem g hx)
    simp [load_headers, hg, ih hrest]

/-- C1: for every ValidationResult, `all_passed` is true iff every element
of `checks` has `passed = true`; in particular it is true for an empty
`checks` list (vacuously). -/
theorem all_passed_iff_every_check_passed (r : ValidationResult) :
    (r.all_passed = true ↔ ∀ c ∈ r.checks, c.passed = true) ∧
    ValidationResult.all_passed { bids_root := r.bids_root, checks := [] } = true := by
  constructor
  · simp [ValidationResult.all_passed, List.all_eq_true]
  · rfl

/-- C1 witness: concrete instances of the equivalence. -/
theorem all_passed_iff_every_check_passed_witness :
    (ValidationResult.all_passed { bids_root := "/data", checks := [] } = true) ∧
    ∀ c ∈ (ValidationResult.mk "/data" []).checks, c.passed = true := by
  refine ⟨(all_passed_iff_every_check_passed ⟨"/data", []⟩).2, ?_⟩
  exact (all_passed_iff_every_check_passed ⟨"/data", []⟩).1.mp rfl

/-- C2: when some sampled file's header load raises, `spot_check_nifti_files`
stops at the very first failure (only the files up to and including the
first failing one are opened) and returns a single failing check whose
`actual` embeds the raised error's message; no exception reaches the
caller — the function is total and always returns a check. -/
theorem spot_check_stops_at_first_failure (fs : FS)
    (sampler : List String → Nat → List String)
    (bids_root pattern : String) (sample_size : Nat)
    (pre post : List String) (f e : String)
    (hne : fs.glob bids_root pattern ≠ [])
    (hsample : sampler (fs.glob bids_root pattern)
        (min sample_size (fs.glob bids_root pattern).length) = pre ++ f :: post)
    (hpre : ∀ g ∈ pre, fs.loadHeader g = Except.ok ())
    (hf : fs.loadHeader f = Except.error e) :
    spot_check_nifti_files_traced fs sampler bids_root pattern sample_size =
      ({ name := "nifti_integrity", passed := false,
         expected := toString (pre ++ f :: post).length ++ "/" ++
           toString (pre ++ f :: post).length ++ " loadable",
         actual := "ERROR: " ++ e,
         details := some ("Pattern: " ++ pattern) }, pre ++ [f]) ∧
    spot_check_nifti_files fs sampler bids_root pattern sample_size =
      { name := "nifti_integrity", passed := false,
        expected := toString (pre ++ f :: post).length ++ "/" ++
          toString (pre ++ f :: post).length ++ " loadable",
        actual := "ERROR: " ++ e,
        details := some ("Pattern: " ++ pattern) } := by
  have h1 : spot_check_nifti_files_traced fs sampler bids_root pattern
      sample_size =
      ({ name := "nifti_integrity", passed := false,
         expected := toString (pre ++ f :: post).length ++ "/" ++
           toString (pre ++ f :: post).length ++ " loadable",
         actual := "ERROR: " ++ e,
         details := some ("Pattern: " ++ pattern) }, pre ++ [f]) := by
    have hemp : (fs.glob bids_root pattern).isEmpty = false := by
      cases hg : fs.glob bids_root pattern with
      | nil => exact absurd hg hne
      | cons x xs => simp [List.isEmpty]
    simp only [spot_check_nifti_files_traced, hemp, Bool.false_eq_true,
      if_false, hsample, load_headers_first_error fs pre post f e hpre hf]
  exact ⟨h1, by simp [spot_check_nifti_files, h1]⟩

/-- C2 witness: in the concrete corrupt environment, sampling all three
files stops after the second (failing) file and returns the failing check
embedding "bad header". -/
theorem spot_check_stops_at_first_failure_witness :
    spot_check_nifti_files_traced fsCorrupt takeSampler "/data" "**/*.nii.gz" 10 =
      ({ name := "nifti_integrity", passed := false,
         expected := "3/3 loadable",
         actual := "ERROR: bad header",
         details := some ("Pattern: " ++ "**/*.nii.gz") },
       ["good1.nii.gz", "bad.nii.gz"]) := by
  have h := spot_check_stops_at_first_failure fsCorrupt takeSampler
    "/data" "**/*.nii.gz" 10 ["good1.nii.gz"] ["good2.nii.gz"]
    "bad.nii.gz" "bad header" (by decide) rfl
    (by intro g hg; simp at hg; subst hg; rfl) rfl
  exact h.1

/-- Name constancy helper: `validate_bids_required_files` always names its
check "bids_required_files", in both branches. -/
theorem validate_bids_required_files_name (fs : FS) (bids_root : String)
    (o : Option (List String)) :
    (validate_bids_required_files fs bids_root o).name =
      "bids_required_files" := by
  simp only [validate_bids_required_files]
  split <;> rfl

/-- Name constancy helper: `spot_check_nifti_files` always names its check
"nifti_integrity", in all three branches. -/
theorem spot_check_nifti_files_name (fs : FS)
    (sampler : List String → Nat → List String)
    (bids_root pattern : String) (sample_size : Nat) :
    (spot_check_nifti_files fs sampler bids_root pattern sample_size).name =
      "nifti_integrity" := by
  simp only [spot_check_nifti_files, spot_check_nifti_files_traced]
  split
  · rfl
  · split <;> rfl

/-- C3: on a nonexistent root, `validate_generic_bids` returns a result
with exactly one check, named "bids_root_exists", failed, with
`actual = "not found"` and `details` the stringified path; the
required-files and integrity checks are never reached. -/
theorem validate_generic_bids_root_missing (fs : FS)
    (sampler : List String → Nat → List String)
    (bids_root nifti_pattern : String) (nifti_sample_size : Nat)
    (h : fs.pathExists bids_root = false) :
    validate_generic_bids fs sampler bids_root nifti_pattern
        nifti_sample_size =
      { bids_root := bids_root,
        checks := [{ name := "bids_root_exists", passed := false,
                     expected := "directory exists", actual := "not found",
                     details := some bids_root }] } := by
  simp [validate_generic_bids, h, ValidationResult.add_check]

/-- C3 witness: concrete run on an environment where no path exists. -/
theorem validate_generic_bids_root_missing_witness :
    validate_generic_bids fsRootMissing takeSampler "/no/such/dir"
        "**/*_T1w.nii.gz" 10 =
      { bids_root := "/no/such/dir",
        checks := [{ name := "bids_root_exists", passed := false,
                     expected := "directory exists", actual := "not found",
                     details := some "/no/such/dir" }] } :=
  validate_generic_bids_root_missing fsRootMissing takeSampler "/no/such/dir"
    "**/*_T1w.nii.gz" 10 rfl

/-- C4: on an existing root, `validate_generic_bids` returns exactly two
checks, in order: the required-files check, then the integrity check built
from the caller-supplied pattern and sample size — with no condition on
whether the first check passed.  The name projection confirms the order. -/
theorem validate_generic_bids_two_checks (fs : FS)
    (sampler : List String → Nat → List String)
    (bids_root nifti_pattern : String) (nifti_sample_size : Nat)
    (h : fs.pathExists bids_root = true) :
    validate_generic_bids fs sampler bids_root nifti_pattern
        nifti_sample_size =
      { bids_root := bids_root,
        checks := [validate_bids_required_files fs bids_root none,
                   spot_check_nifti_files fs sampler bids_root nifti_pattern
                     nifti_sample_size] } ∧
    (validate_generic_bids fs sampler bids_root nifti_pattern
        nifti_sample_size).checks.map (fun c => c.name) =
      ["bids_required_files", "nifti_integrity"] := by
  have h1 : validate_generic_bids fs sampler bids_root nifti_pattern
      nifti_sample_size =
      { bids_root := bids_root,
        checks := [validate_bids_required_files fs bids_root none,
                   spot_check_nifti_files fs sampler bids_root nifti_pattern
                     nifti_sample_size] } := by
    simp [validate_generic_bids, h, ValidationResult.add_check]
  refine ⟨h1, ?_⟩
  rw [h1]
  simp [validate_bids_required_files_name, spot_check_nifti_files_name]

/-- C4 witness: concrete run on an environment where the root exists but a
required file is missing: the integrity check is still appended. -/
theorem validate_generic_bids_two_checks_witness :
    (validate_generic_bids fsCorrupt takeSampler "/data" "**/*.nii.gz"
        1).checks.map (fun c => c.name) =
      ["bids_required_files", "nifti_integrity"] :=
  (validate_generic_bids_two_checks fsCorrupt takeSampler "/data"
    "**/*.nii.gz" 1 rfl).2

/-- C5: the missing list is exactly the required names whose joined path
does not exist, in original list order (a sublist of `req`); with at least
one missing name the check fails with `actual` = "missing: " followed by
the comma-space-joined missing names; with none missing it passes with
`actual` = "all present". -/
theorem validate_bids_required_files_spec (fs : FS) (bids_root : String)
    (req : List String) :
    (missing_required fs bids_root req).Sublist req ∧
    (∀ f, f ∈ missing_required fs bids_root req ↔
        f ∈ req ∧ fs.pathExists (bids_root ++ "/" ++ f) = false) ∧
    (missing_required fs bids_root req ≠ [] →
      validate_bids_required_files fs bids_root (some req) =
        { name := "bids_required_files", passed := false,
          expected := "all present",
          actual := "missing: " ++
            String.intercalate ", " (missing_required fs bids_root req),
          details := some ("Required: " ++ pyReprStrList req) }) ∧
    (missing_required fs bids_root req = [] →
      validate_bids_required_files fs bids_root (some req) =
        { name := "bids_required_files", passed := true,
          expected := "all present", actual := "all present",
          details := none }) := by
  refine ⟨List.filter_sublist req, ?_, ?_, ?_⟩
  · intro f
    simp [missing_required, List.mem_filter]
  · intro hne
    have hemp : (missing_required fs bids_root req).isEmpty = false := by
      cases hm : missing_required fs bids_root req with
      | nil => exact absurd hm hne
      | cons x xs => simp [List.isEmpty]
    simp [validate_bids_required_files, hemp]
  · intro hnil
    simp [validate_bids_required_files, hnil]

/-- C5 witness: with no path existing both required names are reported
missing, in order; with every path existing the check passes. -/
theorem validate_bids_required_files_spec_witness :
    validate_bids_required_files fsRootMissing "/data"
        (some ["dataset_description.json", "participants.tsv"]) =
      { name := "bids_required_files", passed := false,
        expected := "all present",
        actual := "missing: dataset_description.json, participants.tsv",
        details := some
          "Required: [\x27dataset_description.json\x27, \x27participants.tsv\x27]" } ∧
    validate_bids_required_files fsClean "/data"
        (some ["dataset_description.json", "participants.tsv"]) =
      { name := "bids_required_files", passed := true,
        expected := "all present", actual := "all present",
        details := none } := by
  constructor
  · exact (validate_bids_required_files_spec fsRootMissing "/data"
      ["dataset_description.json", "participants.tsv"]).2.2.1 (by decide)
  · exact (validate_bids_required_files_spec fsClean "/data"
      ["dataset_description.json", "participants.tsv"]).2.2.2 rfl

/-- C6 counterexample: in the passing case the check's `details` is `none`
— it does not include the required-files list, refuting the claim that
`details` includes the full list in both cases. -/
theorem required_files_details_counterexample :
    (validate_bids_required_files fsClean "/data"
        (some ["dataset_description.json", "participants.tsv"])).passed = true ∧
    (validate_bids_required_files fsClean "/data"
        (some ["dataset_description.json", "participants.tsv"])).details =
      none := by
  exact ⟨rfl, rfl⟩

/-- C6 amended: the failing check's `details` includes the full
required-files list ("Required: " followed by its Python repr); the passing
check's `details` is absent (`none`). -/
theorem required_files_details_amended (fs : FS) (bids_root : String)
    (req : List String) :
    (missing_required fs bids_root req ≠ [] →
      (validate_bids_required_files fs bids_root (some req)).details =
        some ("Required: " ++ pyReprStrList req)) ∧
    (missing_required fs bids_root req = [] →
      (validate_bids_required_files fs bids_root (some req)).details =
        none) := by
  constructor
  · intro hne
    have hemp : (missing_required fs bids_root req).isEmpty = false := by
      cases hm : missing_required fs bids_root req with
      | nil => exact absurd hm hne
      | cons x xs => simp [List.isEmpty]
    simp [validate_bids_required_files, hemp]
  · intro hnil
    simp [validate_bids_required_files, hnil]

/-- C6 amended witness: concrete failing and passing runs. -/
theorem required_files_details_amended_witness :
    (validate_bids_required_files fsRootMissing "/data"
        (some ["participants.tsv"])).details =
      some "Required: [\x27participants.tsv\x27]" ∧
    (validate_bids_required_files fsClean "/data"
        (some ["participants.tsv"])).details = none := by
  constructor
  · exact (required_files_details_amended fsRootMissing "/data"
      ["participants.tsv"]).1 (by decide)
  · exact (required_files_details_amended fsClean "/data"
      ["participants.tsv"]).2 rfl

/-- C7: when the glob yields zero matches, `spot_check_nifti_files` returns
a single failing check named "nifti_integrity" with
`actual = "no files found"`, opens no file (empty trace), and this holds
for every requested sample size. -/
theorem spot_check_no_files_found (fs : FS)
    (sampler : List String → Nat → List String)
    (bids_root pattern : String) (sample_size : Nat)
    (h : fs.glob bids_root pattern = []) :
    spot_check_nifti_files_traced fs sampler bids_root pattern sample_size =
      ({ name := "nifti_integrity", passed := false,
         expected := "loadable NIfTI files", actual := "no files found",
         details := some ("Pattern: " ++ pattern) }, []) := by
  simp [spot_check_nifti_files_traced, h]

/-- C7 witness: concrete run with an empty glob and a nonzero sample size. -/
theorem spot_check_no_files_found_witness :
    spot_check_nifti_files_traced fsRootMissing takeSampler "/data"
        "**/*_T1w.nii.gz" 20 =
      ({ name := "nifti_integrity", passed := false,
         expected := "loadable NIfTI files", actual := "no files found",
         details := some ("Pattern: " ++ "**/*_T1w.nii.gz") }, []) :=
  spot_check_no_files_found fsRootMissing takeSampler "/data"
    "**/*_T1w.nii.gz" 20 rfl

/-- C8: with at least one match, the sample drawn has size
`k = min sample_size total`; when every sampled header loads cleanly,
exactly those `k` files are opened (the trace is the sample) and the check
passes with `expected = "<k>/<k> loadable"`, `actual = "<k>/<k> passed"`
and `details = "Checked <k> of <total> files"`. -/
theorem spot_check_sample_clamped_all_pass (fs : FS)
    (sampler : List String → Nat → List String)
    (bids_root pattern : String) (sample_size : Nat) (sample : List String)
    (hne : fs.glob bids_root pattern ≠ [])
    (hsample : sampler (fs.glob bids_root pattern)
        (min sample_size (fs.glob bids_root pattern).length) = sample)
    (hlen : sample.length =
        min sample_size (fs.glob bids_root pattern).length)
    (hok : ∀ f ∈ sample, fs.loadHeader f = Except.ok ()) :
    spot_check_nifti_files_traced fs sampler bids_root pattern sample_size =
      ({ name := "nifti_integrity", passed := true,
         expected :=
           toString (min sample_size (fs.glob bids_root pattern).length) ++
             "/" ++
             toString (min sample_size (fs.glob bids_root pattern).length) ++
             " loadable",
         actual :=
           toString (min sample_size (fs.glob bids_root pattern).length) ++
             "/" ++
             toString (min sample_size (fs.glob bids_root pattern).length) ++
             " passed",
         details := some
           ("Checked " ++
             toString (min sample_size (fs.glob bids_root pattern).length) ++
             " of " ++ toString (fs.glob bids_root pattern).length ++
             " files") }, sample) := by
  have hemp : (fs.glob bids_root pattern).isEmpty = false := by
    cases hg : fs.glob bids_root pattern with
    | nil => exact absurd hg hne
    | cons x xs => simp [List.isEmpty]
  simp only [spot_check_nifti_files_traced, hemp, Bool.false_eq_true,
    if_false, hsample, load_headers_all_ok fs sample hok, hlen]

/-- C8 witness: requesting sample size 20 against 3 matches checks exactly
3 files and renders "3/3". -/
theorem spot_check_sample_clamped_all_pass_witness :
    spot_check_nifti_files_traced fsClean takeSampler "/data"
        "**/*_T1w.nii.gz" 20 =
      ({ name := "nifti_integrity", passed := true,
         expected := "3/3 loadable", actual := "3/3 passed",
         details := some "Checked 3 of 3 files" },
       ["a_T1w.nii.gz", "b_T1w.nii.gz", "c_T1w.nii.gz"]) := by
  have h := spot_check_sample_clamped_all_pass fsClean takeSampler "/data"
    "**/*_T1w.nii.gz" 20
    ["a_T1w.nii.gz", "b_T1w.nii.gz", "c_T1w.nii.gz"]
    (by decide) rfl rfl (fun f hf => rfl)
  exact h

/-- C10: with at least one match and a requested sample size of zero, the
run opens no file at all (empty trace) and returns a vacuously passing
check rendering "0/0 loadable" / "0/0 passed" / "Checked 0 of <total>
files". -/
theorem spot_check_zero_sample_vacuous_pass (fs : FS)
    (sampler : List String → Nat → List String)
    (bids_root pattern : String)
    (hne : fs.glob bids_root pattern ≠ [])
    (hzero : sampler (fs.glob bids_root pattern) 0 = []) :
    spot_check_nifti_files_traced fs sampler bids_root pattern 0 =
      ({ name := "nifti_integrity", passed := true,
         expected := "0/0 loadable", actual := "0/0 passed",
         details := some ("Checked 0 of " ++
           toString (fs.glob bids_root pattern).length ++ " files") },
       []) := by
  have hemp : (fs.glob bids_root pattern).isEmpty = false := by
    cases hg : fs.glob bids_root pattern with
    | nil => exact absurd hg hne
    | cons x xs => simp [List.isEmpty]
  have hmin : min 0 (fs.glob bids_root pattern).length = 0 :=
    Nat.zero_min _
  simp only [spot_check_nifti_files_traced, hemp, Bool.false_eq_true,
    if_false, hmin, hzero, load_headers, List.length_nil]
  rfl

/-- C10 witness: concrete run with three matches and sample size zero. -/
theorem spot_check_zero_sample_vacuous_pass_witness :
    spot_check_nifti_files_traced fsClean takeSampler "/data"
        "**/*_T1w.nii.gz" 0 =
      ({ name := "nifti_integrity", passed := true,
         expected := "0/0 loadable", actual := "0/0 passed",
         details := some "Checked 0 of 3 files" }, []) := by
  have h := spot_check_zero_sample_vacuous_pass fsClean takeSampler "/data"
    "**/*_T1w.nii.gz" (by decide) rfl
  exact h

/-- C9: with no maximum the expected string is ">= <min>" and the check
passes iff `min ≤ actual`; with a maximum the expected string is
"<min>-<max>" and the check passes iff `min ≤ actual ≤ max`; on failure
`details` restates the expected range and the actual value, on success
`details` is absent. -/
theorem validate_count_spec (name : String) (a mn mx : Int) :
    ((validate_count name a mn none).expected = ">= " ++ toString mn) ∧
    ((validate_count name a mn none).passed = true ↔ mn ≤ a) ∧
    ((validate_count name a mn (some mx)).expected =
      toString mn ++ "-" ++ toString mx) ∧
    ((validate_count name a mn (some mx)).passed = true ↔
      mn ≤ a ∧ a ≤ mx) ∧
    (∀ o : Option Int, (validate_count name a mn o).passed = false →
      (validate_count name a mn o).details =
        some ("Expected " ++ (validate_count name a mn o).expected ++
          ", got " ++ toString a)) ∧
    (∀ o : Option Int, (validate_count name a mn o).passed = true →
      (validate_count name a mn o).details = none) := by
  refine ⟨rfl, ?_, rfl, ?_, ?_, ?_⟩
  · simp [validate_count]
  · simp [validate_count]
  · intro o h
    cases o with
    | none =>
      have hb : decide (mn ≤ a) = false := h
      simp [validate_count, hb]
    | some v =>
      have hb : (decide (mn ≤ a) && decide (a ≤ v)) = false := h
      simp only [validate_count, hb, Bool.false_eq_true, if_false]
  · intro o h
    cases o with
    | none =>
      have hb : decide (mn ≤ a) = true := h
      simp [validate_count, hb]
    | some v =>
      have hb : (decide (mn ≤ a) && decide (a ≤ v)) = true := h
      simp only [validate_count, hb, if_true]

/-- C9 witness: actual 50 within 40-60 passes; 30 and 70 fail; omitting
the maximum renders expected as ">= 40". -/
theorem validate_count_spec_witness :
    (validate_count "x" 50 40 (some 60)).passed = true ∧
    (validate_count "x" 30 40 (some 60)).passed = false ∧
    (validate_count "x" 70 40 (some 60)).passed = false ∧
    (validate_count "x" 50 40 none).expected = ">= 40" := by
  refine ⟨?_, ?_, ?_, ?_⟩
  · exact (validate_count_spec "x" 50 40 60).2.2.2.1.mpr (by decide)
  · cases hp : (validate_count "x" 30 40 (some 60)).passed
    · rfl
    · exact absurd ((validate_count_spec "x" 30 40 60).2.2.2.1.mp hp)
        (by decide)
  · cases hp : (validate_count "x" 70 40 (some 60)).passed
    · rfl
    · exact absurd ((validate_count_spec "x" 70 40 60).2.2.2.1.mp hp)
        (by decide)
  · exact (validate_count_spec "x" 50 40 0).1

end HfBidsNifti
